import Mathlib

/-
Verification development for the devnet block/transaction ledger
(`starknet_devnet/blocks.py` and `starknet_devnet/transactions.py`).

The Python classes are embedded shallowly:
* Python `dict`s keyed by integers become association lists over `Nat`
  (`dget?` / `dinsert` / `derase` mirror `d[k]` / `d[k] = v` / `del d[k]`);
* stateful methods become pure functions that take the old object and return
  an updated one, with Python exceptions modelled by `Except DevnetError`;
* the external collaborators (the `origin` fallback data source and the
  cryptographic block-hash and event-hash functions from the starkware
  library) are passed in as explicit parameters, exactly at the interface
  boundary the spec declares to be out of scope.
-/

set_option autoImplicit false

/-! ## Association-list model of Python integer-keyed dicts -/

/-- Lookup of `d[k]` returning `none` when the key is absent. -/
def dget? {α : Type} [DecidableEq α] {β : Type} (d : List (α × β)) (k : α) : Option β :=
  match d with
  | [] => none
  | (k', v) :: rest => if k' = k then some v else dget? rest k

/-- Update `d[k] = v`: replaces the binding in place, or appends a new one,
mirroring insertion-ordered Python dicts. -/
def dinsert {α : Type} [DecidableEq α] {β : Type} (d : List (α × β)) (k : α) (v : β) :
    List (α × β) :=
  match d with
  | [] => [(k, v)]
  | (k', v') :: rest => if k' = k then (k, v) :: rest else (k', v') :: dinsert rest k v

/-- Deletion `del d[k]` (the caller checks presence separately, as Python's
`KeyError` is modelled at the call sites). -/
def derase {α : Type} [DecidableEq α] {β : Type} (d : List (α × β)) (k : α) :
    List (α × β) :=
  match d with
  | [] => []
  | (k', v') :: rest => if k' = k then derase rest k else (k', v') :: derase rest k

/-! ## Hexadecimal and decimal parsing, mirroring `int(s, 16)` / `str.isdigit` -/

/-- Value of one hexadecimal digit, case-insensitive, as accepted by
Python's `int(_, 16)`. -/
def hexDigitVal? (c : Char) : Option Nat :=
  if c.isDigit then some (c.toNat - 48)
  else if 'a' ≤ c ∧ c ≤ 'f' then some (c.toNat - 87)
  else if 'A' ≤ c ∧ c ≤ 'F' then some (c.toNat - 55)
  else none

/-- Accumulating loop of `hexDigitsToNat?`. -/
def hexLoop (cs : List Char) (acc : Nat) : Option Nat :=
  match cs with
  | [] => some acc
  | c :: rest =>
    match hexDigitVal? c with
    | some d => hexLoop rest (16 * acc + d)
    | none => none

/-- Parse a non-empty string of hexadecimal digits (the part after `0x`).
Fails on the empty string, as `int("0x", 16)` does. -/
def hexDigitsToNat? (cs : List Char) : Option Nat :=
  match cs with
  | [] => none
  | _ :: _ => hexLoop cs 0

/-- Parse a `0x`-prefixed hexadecimal string, the grammar of well-formed hash
identifiers (Python additionally tolerates underscores and surrounding
whitespace inside `int(_, 16)`; no claim touches those exotic forms). -/
def parse0x (s : String) : Option Nat :=
  match s.data with
  | '0' :: 'x' :: rest => hexDigitsToNat? rest
  | _ => none

/-- Rendering of Python's `hex(n)` for a non-negative `n`: `0x` followed by
lowercase hexadecimal digits. -/
def pyHex (n : Nat) : String :=
  "0x" ++ String.mk (Nat.toDigits 16 n)

/-! ## Errors

Python exceptions raised by the source, as one error type: the typed
`StarknetDevnetException` codes, plus the unchecked `KeyError` / `TypeError`
/ `AssertionError` escapes. -/

inductive DevnetError where
  | malformedRequest
  | blockNotFound
  | noTrace
  | keyError
  | typeError
  | assertionError
  deriving DecidableEq, Repr

/-! ## Block data model (`blocks.py`) -/

/-- Block status values used by `blocks.py` (`BlockStatus` from the starkware
response objects, restricted to the constructors the source mentions). -/
inductive BlockStatus where
  | PENDING
  | ACCEPTED_ON_L2
  | ABORTED
  deriving DecidableEq, Repr

/-- An emitted event, as consumed by the external event-hash function. -/
structure Event where
  from_address : Nat
  keys : List Nat
  data : List Nat
  deriving DecidableEq, Repr

/-- Transaction entry of a block (`TransactionSpecificInfo` view of an
internal transaction: only `transaction_hash` is read by `blocks.py`). -/
structure BlockTx where
  transaction_hash : Nat
  deriving DecidableEq, Repr

/-- Per-transaction execution receipt (`TransactionExecution`), with the
fields `blocks.py` and the block-hash computation read. L2-to-L1 message
rendering is an external-collaborator concern and is not modelled. -/
structure TransactionExecution where
  transaction_hash : Nat
  transaction_index : Option Nat
  actual_fee : Nat
  events : List Event
  deriving DecidableEq, Repr

/-- The `StarknetBlock` response object, with the fields `blocks.py`
reads and writes. `block_hash`, `block_number`, `state_root` and
`transaction_receipts` are optional because they are `None` while pending
(and `block_number` / `transaction_receipts` are reset to `None` on abort). -/
structure StarknetBlock where
  block_hash : Option Nat
  block_number : Option Nat
  state_root : Option Nat
  transactions : List BlockTx
  timestamp : Nat
  transaction_receipts : Option (List TransactionExecution)
  status : BlockStatus
  gas_price : Nat
  sequencer_address : Nat
  parent_block_hash : Option Nat
  starknet_version : String
  deriving DecidableEq, Repr

/-- State update record (`BlockStateUpdate`); `state_diff` is the opaque
payload of the external state engine. -/
structure BlockStateUpdate where
  block_hash : Option Nat
  old_root : Nat
  new_root : Nat
  state_diff : Nat
  deriving DecidableEq, Repr

/-- The slice of `StarknetState` that `blocks.py` reads
(`state.state.block_info` fields, `state.general_config.sequencer_address`,
and the opaque general config forwarded to the block-hash function). -/
structure StarknetState where
  block_timestamp : Nat
  gas_price : Nat
  sequencer_address : Nat
  general_config : Nat
  deriving DecidableEq, Repr

/-- Modelled from the spec: `DUMMY_STATE_ROOT` of `constants.py` (not under
`src/`), the fixed placeholder state root written into every sealed block. -/
def DUMMY_STATE_ROOT : Nat := 0

/-- Modelled from the spec: `CAIRO_LANG_VERSION` of `constants.py` (not under
`src/`), an opaque version string stamped on generated blocks. -/
def CAIRO_LANG_VERSION : String := "cairo-lang-version"

/-- Parsed block identifier (`BlockIdentifier`): the `pending` / `latest`
tags or an explicit (possibly negative, when the caller passes a raw Python
int) number. -/
inductive BlockId where
  | pending
  | latest
  | num (i : Int)
  deriving DecidableEq, Repr

/-- Raw block-number argument before parsing: a Python int or a string. -/
inductive RawBlockId where
  | int (i : Int)
  | str (s : String)
  deriving DecidableEq, Repr

def PENDING_BLOCK_ID : String := "pending"

def LATEST_BLOCK_ID : String := "latest"

/-- Embedding of `_parse_block_hash`: `None` passes through, a `0x`-prefixed
hex string parses to its value, anything else raises MALFORMED_REQUEST. -/
def parse_block_hash (raw : Option String) : Except DevnetError (Option Nat) :=
  match raw with
  | none => .ok none
  | some s =>
    match parse0x s with
    | some n => .ok (some n)
    | none => .error .malformedRequest

/-- Embedding of `_parse_block_number`: `None` means latest; the tag strings
map to themselves; ints pass through unparsed (including negatives); digit
strings parse in base 10; anything else raises MALFORMED_REQUEST. -/
def parse_block_number (raw : Option RawBlockId) : Except DevnetError BlockId :=
  match raw with
  | none => .ok .latest
  | some (.int i) => .ok (.num i)
  | some (.str s) =>
    if s = PENDING_BLOCK_ID then .ok .pending
    else if s = LATEST_BLOCK_ID then .ok .latest
    else
      match s.toNat? with
      | some n => .ok (.num (n : Int))
      | none => .error .malformedRequest

/-! ## Transaction data model (`transactions.py`) -/

/-- Transaction status values (spec section 3 restricts the richer starkware
enum to these; any other member passes through unchanged). -/
inductive TransactionStatus where
  | PENDING
  | ACCEPTED_ON_L2
  | REJECTED
  deriving DecidableEq, Repr

/-- Enum member name, as Python's `status.name`. -/
def TransactionStatus.name (s : TransactionStatus) : String :=
  match s with
  | .PENDING => "PENDING"
  | .ACCEPTED_ON_L2 => "ACCEPTED_ON_L2"
  | .REJECTED => "REJECTED"

/-- Failure reason attached to rejected transactions
(`TransactionFailureReason`). -/
structure TransactionFailureReason where
  code : String
  error_message : String
  deriving DecidableEq, Repr

/-- Abstract stand-in for the external starkware call-info objects
(`CallInfo` / `FunctionInvocation`); their internals are out of scope per
spec section 1, only their presence or absence is observable here. -/
structure CallInfo where
  payload : Nat
  deriving DecidableEq, Repr

/-- Conversion `FunctionInvocation.from_optional_internal`, an external
translation modelled as a passthrough on the abstract call-info values. -/
def fromOptionalInternal (c : Option CallInfo) : Option CallInfo := c

/-- Internal transaction object, with the attributes `transactions.py`
reads; `signature = none` models the `hasattr` check failing. -/
structure InternalTx where
  hash_value : Nat
  signature : Option (List Nat)
  deriving DecidableEq, Repr

/-- The slice of `TransactionExecutionInfo` that the source reads:
`actual_fee = none` models a result object without that attribute, and
`events` is the externally sorted event list (`get_sorted_events`). -/
structure ExecutionInfo where
  actual_fee : Option Nat
  events : List Event
  validate_info : Option CallInfo
  call_info : Option CallInfo
  fee_transfer_info : Option CallInfo
  deriving DecidableEq, Repr

/-- The `DevnetTransaction` record. -/
structure DevnetTransaction where
  internal_tx : InternalTx
  status : TransactionStatus
  execution_info : ExecutionInfo
  block : Option StarknetBlock := none
  transaction_failure_reason : Option TransactionFailureReason := none
  transaction_index : Option Nat := none
  block_number : Option Nat := none
  transaction_hash : Nat
  deriving DecidableEq, Repr

namespace DevnetTransaction

/-- Embedding of `DevnetTransaction.get_signature`. -/
def get_signature (tx : DevnetTransaction) : List Nat :=
  tx.internal_tx.signature.getD []

/-- Embedding of `DevnetTransaction.__get_actual_fee`. -/
def get_actual_fee (tx : DevnetTransaction) : Nat :=
  tx.execution_info.actual_fee.getD 0

/-- Embedding of `DevnetTransaction.__get_events`. -/
def get_events (tx : DevnetTransaction) : List Event :=
  tx.execution_info.events

/-- Embedding of `DevnetTransaction.__get_block_hash`. -/
def get_block_hash (tx : DevnetTransaction) : Option Nat :=
  match tx.block with
  | some b => b.block_hash
  | none => none

/-- Embedding of `DevnetTransaction.get_execution`. -/
def get_execution (tx : DevnetTransaction) : TransactionExecution :=
  { transaction_hash := tx.internal_tx.hash_value
    transaction_index := tx.transaction_index
    actual_fee := tx.get_actual_fee
    events := tx.get_events }

end DevnetTransaction

/-- The `TransactionInfo` response object fields the source reads back. -/
structure TransactionInfo where
  status : TransactionStatus
  block_hash : Option Nat
  block_number : Option Nat
  transaction_failure_reason : Option TransactionFailureReason
  transaction_index : Option Nat
  deriving DecidableEq, Repr

/-- Embedding of `DevnetTransaction.get_tx_info`. -/
def DevnetTransaction.get_tx_info (tx : DevnetTransaction) : TransactionInfo :=
  { status := tx.status
    block_hash := tx.get_block_hash
    block_number := tx.block_number
    transaction_failure_reason := tx.transaction_failure_reason
    transaction_index := tx.transaction_index }

/-- The `TransactionTrace` response object. -/
structure TransactionTrace where
  validate_invocation : Option CallInfo
  function_invocation : Option CallInfo
  fee_transfer_invocation : Option CallInfo
  signature : List Nat
  deriving DecidableEq, Repr

/-- Embedding of `DevnetTransaction.get_trace` (the `isinstance` branch and
`from_optional_internal` are both passthroughs on the abstract call infos). -/
def DevnetTransaction.get_trace (tx : DevnetTransaction) : TransactionTrace :=
  { validate_invocation := fromOptionalInternal tx.execution_info.validate_info
    function_invocation := tx.execution_info.call_info
    fee_transfer_invocation := fromOptionalInternal tx.execution_info.fee_transfer_info
    signature := tx.get_signature }

/-- The dict returned by `get_transaction_status`. A field being `none`
means the key is absent; `tx_failure_reason = some none` models the key being
present with value `None`. -/
structure StatusResponse where
  tx_status : String
  block_hash : Option String := none
  tx_failure_reason : Option (Option TransactionFailureReason) := none
  deriving DecidableEq, Repr

/-- Argument of `origin.get_state_update`: the source passes either the raw
hash string (line 158) or a numeric hash (line 177). -/
inductive HashArg where
  | str (s : String)
  | num (n : Nat)
  deriving DecidableEq, Repr

/-- The read-only `origin` fallback collaborator (spec sections 1 and 6):
out of scope, specified only at its interface, hence a record of abstract
response functions. -/
structure Origin where
  get_number_of_blocks : Nat
  get_block_by_number : BlockId → Except DevnetError StarknetBlock
  get_block_by_hash : Option String → Except DevnetError StarknetBlock
  get_state_update : Option HashArg → Except DevnetError (Option BlockStateUpdate)
  get_transaction : String → Except DevnetError TransactionInfo
  get_transaction_status : String → Except DevnetError StatusResponse
  get_transaction_trace : String → Except DevnetError TransactionTrace

/-- Input record of the external block-hash function
(`calculate_block_hash`, spec section 6): all arguments the source passes. -/
structure BlockHashInput where
  general_config : Nat
  parent_hash : Option Nat
  block_number : Nat
  global_state_root : Nat
  block_timestamp : Nat
  tx_hashes : List Nat
  tx_signatures : Option (List (List Nat))
  event_hashes : List Nat
  sequencer_address : Nat
  deriving DecidableEq, Repr

/-- Type of the external block-hash function. -/
def BlockHashFn : Type := BlockHashInput → Nat

/-- Type of the external event-hash function
(`calculate_event_hash(from_address, keys, data)`). -/
def EventHashFn : Type := Nat → List Nat → List Nat → Nat

/-! ## The `DevnetBlocks` ledger -/

/-- State of a `DevnetBlocks` instance. The private dicts become
association lists; the `origin` collaborator and the external hash functions
are passed to each operation explicitly. The state archive
(`MemoryStateArchive`, `state_archive.py`) is modelled from the spec
(section 4.3) as a plain hash-keyed map, since its source is not under
`src/`. -/
structure DevnetBlocks where
  lite : Bool := false
  hash2block : List (Nat × StarknetBlock) := []
  state_updates : List (Nat × Option BlockStateUpdate) := []
  num2hash : List (Nat × Nat) := []
  pending_block : Option StarknetBlock := none
  pending_state_update : Option BlockStateUpdate := none
  pending_signatures : Option (List (List Nat)) := none
  state_archive : List (Nat × StarknetState) := []
  deriving DecidableEq, Repr

namespace DevnetBlocks

/-- Embedding of `get_number_of_accepted_blocks`. -/
def get_number_of_accepted_blocks (b : DevnetBlocks) (o : Origin) : Nat :=
  b.num2hash.length + o.get_number_of_blocks

/-- Embedding of `get_next_block_number`. -/
def get_next_block_number (b : DevnetBlocks) (o : Origin) : Nat :=
  b.get_number_of_accepted_blocks o

/-- Embedding of `__assert_block_number_in_range`: negative numbers raise
MALFORMED_REQUEST, numbers at or above the accepted count raise
BLOCK_NOT_FOUND. -/
def assert_block_number_in_range (i : Int) (count : Nat) : Except DevnetError Unit :=
  if i < 0 then .error .malformedRequest
  else if (count : Int) ≤ i then .error .blockNotFound
  else .ok ()

/-- The explicit-number tail of `get_by_number` (lines 130-134): range
check, then local lookup, else delegation to origin. -/
def get_by_int (b : DevnetBlocks) (o : Origin) (i : Int) : Except DevnetError StarknetBlock :=
  match assert_block_number_in_range i (b.get_number_of_accepted_blocks o) with
  | .error e => .error e
  | .ok _ =>
    match dget? b.num2hash i.toNat with
    | some h =>
      match dget? b.hash2block h with
      | some blk => .ok blk
      | none => .error .keyError
    | none => o.get_block_by_number (.num i)

/-- Embedding of `get_last_block`: `get_by_number` applied to
`get_number_of_accepted_blocks() - 1`, which, being an int argument,
resolves through the explicit-number path. -/
def get_last_block (b : DevnetBlocks) (o : Origin) : Except DevnetError StarknetBlock :=
  b.get_by_int o ((b.get_number_of_accepted_blocks o : Int) - 1)

/-- Embedding of `get_by_number`. -/
def get_by_number (b : DevnetBlocks) (o : Origin) (raw : Option RawBlockId) :
    Except DevnetError StarknetBlock :=
  match parse_block_number raw with
  | .error e => .error e
  | .ok bid =>
    match bid, b.pending_block with
    | .pending, some pb => .ok pb
    | .pending, none =>
      if b.num2hash.isEmpty then o.get_block_by_number .latest else b.get_last_block o
    | .latest, _ =>
      if b.num2hash.isEmpty then o.get_block_by_number .latest else b.get_last_block o
    | .num i, _ => b.get_by_int o i

/-- Embedding of `get_by_hash`: parse, local lookup, else delegate the raw
string to origin. -/
def get_by_hash (b : DevnetBlocks) (o : Origin) (block_hash : Option String) :
    Except DevnetError StarknetBlock :=
  match parse_block_hash block_hash with
  | .error e => .error e
  | .ok numeric =>
    match numeric.bind (dget? b.hash2block) with
    | some blk => .ok blk
    | none => o.get_block_by_hash block_hash

/-- Truthiness of the `block_hash` argument in `if block_hash:` — a present,
non-empty string. -/
def bhTruthy (bh : Option String) : Bool :=
  match bh with
  | some s => !s.isEmpty
  | none => false

/-- The latest-tag tail of `get_state_update` (lines 180-183):
`state_updates.get(last_block.block_hash) or origin.get_state_update()`. -/
def latest_state_update (b : DevnetBlocks) (o : Origin) :
    Except DevnetError (Option BlockStateUpdate) :=
  match b.get_last_block o with
  | .error e => .error e
  | .ok lb =>
    match lb.block_hash with
    | some lh =>
      match (dget? b.state_updates lh).getD none with
      | some u => .ok (some u)
      | none => o.get_state_update none
    | none => o.get_state_update none

/-- The number/tag tail of `get_state_update` (lines 162-183), after the
optional hash resolution. Note line 173: a number inside the valid range but
absent from the local number-to-hash map raises an unchecked `KeyError`
(`self.__num2hash[block_number]`), with the origin delegation on line 177
reachable only from a locally known hash. -/
def state_update_by_number (b : DevnetBlocks) (o : Origin) (raw : Option RawBlockId) :
    Except DevnetError (Option BlockStateUpdate) :=
  match parse_block_number raw with
  | .error e => .error e
  | .ok bid =>
    match bid, b.pending_state_update with
    | .pending, some su => .ok (some su)
    | .pending, none => b.latest_state_update o
    | .latest, _ => b.latest_state_update o
    | .num i, _ =>
      match assert_block_number_in_range i (b.get_number_of_accepted_blocks o) with
      | .error e => .error e
      | .ok _ =>
        match dget? b.num2hash i.toNat with
        | none => .error .keyError
        | some h =>
          match dget? b.state_updates h with
          | some u => .ok u
          | none => o.get_state_update (some (.num h))

/-- Embedding of `get_state_update`: resolve a truthy hash argument to the
stored block's number first (delegating the raw string to origin when the
hash is unknown locally), then fall into the number/tag logic. -/
def get_state_update (b : DevnetBlocks) (o : Origin) (block_hash : Option String)
    (block_number : Option RawBlockId) : Except DevnetError (Option BlockStateUpdate) :=
  if bhTruthy block_hash then
    match parse_block_hash block_hash with
    | .error e => .error e
    | .ok numeric =>
      match numeric.bind (dget? b.hash2block) with
      | none => o.get_state_update (block_hash.map .str)
      | some blk =>
        b.state_update_by_number o (blk.block_number.map (fun m => .int (m : Int)))
  else
    b.state_update_by_number o block_number

/-- Embedding of `generate_pending`: build the PENDING block from the
executed transactions and stage it together with the state update and the
signatures. -/
def generate_pending (b : DevnetBlocks) (o : Origin) (transactions : List DevnetTransaction)
    (state : StarknetState) (state_update : Option BlockStateUpdate) :
    Except DevnetError DevnetBlocks :=
  let timestamp := state.block_timestamp
  let signatures := transactions.map DevnetTransaction.get_signature
  let internal_transactions := transactions.map DevnetTransaction.internal_tx
  let transaction_receipts := transactions.map DevnetTransaction.get_execution
  let block_number := b.get_number_of_accepted_blocks o
  let parentE : Except DevnetError (Option Nat) :=
    if block_number = 0 then .ok (some 0)
    else
      match b.get_last_block o with
      | .error e => .error e
      | .ok last => .ok last.block_hash
  match parentE with
  | .error e => .error e
  | .ok parent_block_hash =>
    .ok { b with
      pending_block := some
        { block_hash := none
          block_number := none
          state_root := none
          transactions := internal_transactions.map (fun it => { transaction_hash := it.hash_value })
          timestamp := timestamp
          transaction_receipts := some transaction_receipts
          status := .PENDING
          gas_price := state.gas_price
          sequencer_address := state.sequencer_address
          parent_block_hash := parent_block_hash
          starknet_version := CAIRO_LANG_VERSION }
      pending_state_update := state_update
      pending_signatures := some signatures }

/-- Embedding of `__calculate_pending_block_hash`: hash every event of every
receipt in receipt order then per-event order, and apply the external
block-hash function to the recorded inputs. Iterating receipts of a block
without any (`transaction_receipts = None`) would raise a `TypeError` in
Python. -/
def calculate_pending_block_hash (hashFn : BlockHashFn) (eventHashFn : EventHashFn)
    (state : StarknetState) (pb : StarknetBlock) (sigs : Option (List (List Nat)))
    (block_number : Nat) (state_root : Nat) : Except DevnetError Nat :=
  match pb.transaction_receipts with
  | none => .error .typeError
  | some receipts =>
    let event_hashes : List Nat :=
      receipts.flatMap (fun r => r.events.map (fun e => eventHashFn e.from_address e.keys e.data))
    .ok (hashFn
      { general_config := state.general_config
        parent_hash := pb.parent_block_hash
        block_number := block_number
        global_state_root := state_root
        block_timestamp := pb.timestamp
        tx_hashes := pb.transactions.map BlockTx.transaction_hash
        tx_signatures := sigs
        event_hashes := event_hashes
        sequencer_address := pb.sequencer_address })

/-- Embedding of `store_pending`: seal the pending block (assert it exists),
assign number and hash per the hash-resolution policy, persist it into the
maps and the archive, clear the pending slots, and return the sealed block. -/
def store_pending (b : DevnetBlocks) (o : Origin) (hashFn : BlockHashFn)
    (eventHashFn : EventHashFn) (state : StarknetState) (is_empty_block : Bool)
    (block_hash : Option Nat) : Except DevnetError (DevnetBlocks × StarknetBlock) :=
  match b.pending_block with
  | none => .error .assertionError
  | some pb =>
    let state_root := DUMMY_STATE_ROOT
    let block_number := b.get_next_block_number o
    let hashE : Except DevnetError Nat :=
      if b.lite || is_empty_block then .ok block_number
      else
        match block_hash with
        | some h => .ok h
        | none =>
          calculate_pending_block_hash hashFn eventHashFn state pb b.pending_signatures
            block_number state_root
    match hashE with
    | .error e => .error e
    | .ok bh =>
      let blk : StarknetBlock :=
        { pb with
          status := .ACCEPTED_ON_L2
          state_root := some state_root
          block_number := some block_number
          block_hash := some bh }
      let new_su : Option BlockStateUpdate :=
        b.pending_state_update.map (fun su => { su with block_hash := some bh })
      .ok ({ b with
        num2hash := dinsert b.num2hash block_number bh
        state_updates := dinsert b.state_updates bh new_su
        hash2block := dinsert b.hash2block bh blk
        state_archive := dinsert b.state_archive bh state
        pending_block := none
        pending_state_update := none
        pending_signatures := none }, blk)

/-- Embedding of `get_state`. Modelled from the spec: the archive's `get`
(`MemoryStateArchive`, not under `src/`) returns the snapshot or
fails/returns empty when absent (spec section 4.3). -/
def get_state (b : DevnetBlocks) (block_hash : Nat) : Option StarknetState :=
  dget? b.state_archive block_hash

/-- Embedding of `abort_latest_block`: look the block up by hash (unchecked
`KeyError` when absent), rewrite it as ABORTED with receipts and number
cleared, delete its number-to-hash entry (unchecked `KeyError` when the
stored number — possibly `None` after a previous abort — is not a key of the
int-keyed map; this is the first mutation of the object, so a failure here
leaves every map unchanged), purge its snapshot, and return the old block's
hash. -/
def abort_latest_block (b : DevnetBlocks) (block_hash : String) :
    Except DevnetError (DevnetBlocks × Option Nat) :=
  match parse_block_hash (some block_hash) with
  | .error e => .error e
  | .ok none => .error .keyError
  | .ok (some numeric_hash) =>
    match dget? b.hash2block numeric_hash with
    | none => .error .keyError
    | some blk =>
      match blk.block_number with
      | none => .error .keyError
      | some n =>
        if (dget? b.num2hash n).isSome then
          let blk2 : StarknetBlock :=
            { blk with status := .ABORTED, transaction_receipts := none, block_number := none }
          .ok ({ b with
            num2hash := derase b.num2hash n
            hash2block := dinsert b.hash2block numeric_hash blk2
            state_archive := derase b.state_archive numeric_hash }, blk.block_hash)
        else .error .keyError

end DevnetBlocks

/-! ## The `DevnetTransactions` ledger -/

/-- State of a `DevnetTransactions` instance: the private hash-keyed store
of transaction records; the `origin` collaborator is passed to each
operation explicitly. -/
structure DevnetTransactions where
  instances : List (Nat × DevnetTransaction) := []
  deriving DecidableEq, Repr

namespace DevnetTransactions

/-- Embedding of `__get_transaction_by_hash`: a `0x`-prefixed hex string
looks the value up (missing keys give `None` via `dict.get`), anything else
raises MALFORMED_REQUEST. -/
def get_transaction_by_hash (txs : DevnetTransactions) (tx_hash : String) :
    Except DevnetError (Option DevnetTransaction) :=
  match parse0x tx_hash with
  | some n => .ok (dget? txs.instances n)
  | none => .error .malformedRequest

/-- Embedding of `get_count`. -/
def get_count (txs : DevnetTransactions) : Nat :=
  txs.instances.length

/-- Embedding of `store`. -/
def store (txs : DevnetTransactions) (tx_hash : Nat) (transaction : DevnetTransaction) :
    DevnetTransactions :=
  { txs with instances := dinsert txs.instances tx_hash transaction }

/-- Embedding of `get_transaction`. -/
def get_transaction (txs : DevnetTransactions) (o : Origin) (tx_hash : String) :
    Except DevnetError TransactionInfo :=
  match txs.get_transaction_by_hash tx_hash with
  | .error e => .error e
  | .ok none => o.get_transaction tx_hash
  | .ok (some tx) => .ok tx.get_tx_info

/-- Embedding of `get_transaction_trace`: rejected local records raise
NO_TRACE, other local records return their trace, unknown hashes delegate to
origin. -/
def get_transaction_trace (txs : DevnetTransactions) (o : Origin) (tx_hash : String) :
    Except DevnetError TransactionTrace :=
  match txs.get_transaction_by_hash tx_hash with
  | .error e => .error e
  | .ok none => o.get_transaction_trace tx_hash
  | .ok (some tx) =>
    if tx.status = .REJECTED then .error .noTrace
    else .ok tx.get_trace

/-- Embedding of `get_transaction_status`: the payload always carries the
status name; `block_hash` (as `hex(...)`) only when the status is
ACCEPTED_ON_L2 and a block is set (`hex(None)` would raise `TypeError`);
`tx_failure_reason` only when the status is REJECTED. -/
def get_transaction_status (txs : DevnetTransactions) (o : Origin) (tx_hash : String) :
    Except DevnetError StatusResponse :=
  match txs.get_transaction_by_hash tx_hash with
  | .error e => .error e
  | .ok none => o.get_transaction_status tx_hash
  | .ok (some tx) =>
    let tx_info := tx.get_tx_info
    let bhE : Except DevnetError (Option String) :=
      if tx.status = .ACCEPTED_ON_L2 ∧ tx.block.isSome then
        match tx.block with
        | some blk =>
          match blk.block_hash with
          | some h => .ok (some (pyHex h))
          | none => .error .typeError
        | none => .ok none
      else .ok none
    match bhE with
    | .error e => .error e
    | .ok bh =>
      .ok { tx_status := tx_info.status.name
            block_hash := bh
            tx_failure_reason :=
              if tx.status = .REJECTED then some tx_info.transaction_failure_reason
              else none }

/-- Embedding of `reject_transaction`: length-one update of the stored
record (unchecked `KeyError` when the hash is unknown) to REJECTED with the
block reference cleared and the fixed failure reason attached. -/
def reject_transaction (txs : DevnetTransactions) (tx_hash : Nat) :
    Except DevnetError DevnetTransactions :=
  match dget? txs.instances tx_hash with
  | none => .error .keyError
  | some tx =>
    .ok { txs with
      instances := dinsert txs.instances tx_hash
        { tx with
          status := .REJECTED
          block := none
          transaction_failure_reason :=
            some { code := "TRANSACTION_FAILED", error_message := "Block aborted." } } }

end DevnetTransactions

/-! ## Small lemmas about the dict model -/

theorem dget?_dinsert_self {α : Type} [DecidableEq α] {β : Type}
    (d : List (α × β)) (k : α) (v : β) : dget? (dinsert d k v) k = some v := by
  induction d with
  | nil => simp [dget?, dinsert]
  | cons p rest ih =>
    obtain ⟨k', v'⟩ := p
    by_cases hk : k' = k
    · simp [dget?, dinsert, hk]
    · simp [dget?, dinsert, hk, ih]

theorem dget?_derase_self {α : Type} [DecidableEq α] {β : Type}
    (d : List (α × β)) (k : α) : dget? (derase d k) k = none := by
  induction d with
  | nil => simp [dget?, derase]
  | cons p rest ih =>
    obtain ⟨k', v'⟩ := p
    by_cases hk : k' = k
    · simp [derase, hk, ih]
    · simp [dget?, derase, hk, ih]

theorem length_derase_lt {α : Type} [DecidableEq α] {β : Type}
    (d : List (α × β)) (k : α) (h : (dget? d k).isSome) :
    (derase d k).length < d.length := by
  induction d with
  | nil => simp [dget?] at h
  | cons p rest ih =>
    obtain ⟨k', v'⟩ := p
    by_cases hk : k' = k
    · simp only [derase, if_pos hk, List.length_cons]
      have : (derase rest k).length ≤ rest.length := by
        clear h ih
        induction rest with
        | nil => simp [derase]
        | cons q rest2 ih2 =>
          obtain ⟨k2, v2⟩ := q
          by_cases hk2 : k2 = k
          · simp only [derase, if_pos hk2, List.length_cons]
            omega
          · simp only [derase, if_neg hk2, List.length_cons]
            omega
      omega
    · simp only [dget?, if_neg hk] at h
      simp only [derase, if_neg hk, List.length_cons]
      exact Nat.succ_lt_succ (ih h)

/-! ## Concrete fixtures used by the witnesses and counterexamples -/

/-- An origin with no blocks that fails every request, matching the default
(non-forked) collaborator at its spec interface. -/
def originEmpty : Origin :=
  { get_number_of_blocks := 0
    get_block_by_number := fun _ => .error .blockNotFound
    get_block_by_hash := fun _ => .error .blockNotFound
    get_state_update := fun _ => .error .blockNotFound
    get_transaction := fun _ => .error .blockNotFound
    get_transaction_status := fun _ => .error .blockNotFound
    get_transaction_trace := fun _ => .error .blockNotFound }

def stateA : StarknetState :=
  { block_timestamp := 5, gas_price := 1, sequencer_address := 7, general_config := 3 }

def suA : BlockStateUpdate := { block_hash := none, old_root := 1, new_root := 2, state_diff := 3 }

/-- A forked origin that owns one block and answers state-update queries. -/
def originOne : Origin :=
  { originEmpty with
    get_number_of_blocks := 1
    get_state_update := fun _ => .ok (some suA) }

/-- A sealed local block with number 0 and hash 1. -/
def blockA : StarknetBlock :=
  { block_hash := some 1
    block_number := some 0
    state_root := some DUMMY_STATE_ROOT
    transactions := []
    timestamp := 5
    transaction_receipts := some []
    status := .ACCEPTED_ON_L2
    gas_price := 1
    sequencer_address := 7
    parent_block_hash := some 0
    starknet_version := CAIRO_LANG_VERSION }

/-- A ledger holding exactly the sealed block `blockA`. -/
def ledgerA : DevnetBlocks :=
  { hash2block := [(1, blockA)]
    state_updates := [(1, some suA)]
    num2hash := [(0, 1)]
    state_archive := [(1, stateA)] }

/-- The hash string of `blockA`. -/
def hashStr1 : String := "0x1"

/-- The block `blockA` after an abort. -/
def blockAborted : StarknetBlock :=
  { blockA with status := .ABORTED, transaction_receipts := none, block_number := none }

/-- The ledger `ledgerA` after `blockA` was aborted. -/
def ledgerAborted : DevnetBlocks :=
  { hash2block := [(1, blockAborted)]
    state_updates := [(1, some suA)]
    num2hash := []
    state_archive := [] }

/-- A transaction fixture set: an internal transaction, an execution result,
a rejected record and a record accepted into `blockA`. -/
def internalA : InternalTx := { hash_value := 10, signature := some [2, 3] }

def execA : ExecutionInfo :=
  { actual_fee := some 4
    events := []
    validate_info := none
    call_info := some { payload := 9 }
    fee_transfer_info := none }

def txRejected : DevnetTransaction :=
  { internal_tx := internalA, status := .REJECTED, execution_info := execA,
    transaction_hash := 10 }

def txAccepted : DevnetTransaction :=
  { internal_tx := internalA, status := .ACCEPTED_ON_L2, execution_info := execA,
    block := some blockA, transaction_hash := 10 }

def txsR : DevnetTransactions := { instances := [(10, txRejected)] }

def txsA : DevnetTransactions := { instances := [(10, txAccepted)] }

/-- The hash string of `internalA`. -/
def hashStrA : String := "0xa"

/-! ## Claim C8 -/

/-- C8: for a transaction hash that parses as valid 0x-prefixed hex and
matches a locally stored record, `get_transaction_trace` fails with NO_TRACE
when the record's status is REJECTED, and returns the record's trace without
error for any other status. -/
theorem rejected_trace_policy (txs : DevnetTransactions) (o : Origin) (s : String)
    (tx : DevnetTransaction)
    (hfound : txs.get_transaction_by_hash s = .ok (some tx)) :
    (tx.status = .REJECTED →
      txs.get_transaction_trace o s = .error .noTrace) ∧
    (tx.status ≠ .REJECTED →
      txs.get_transaction_trace o s = .ok tx.get_trace) := by
  constructor
  · intro hst
    simp [DevnetTransactions.get_transaction_trace, hfound, hst]
  · intro hst
    simp [DevnetTransactions.get_transaction_trace, hfound, hst]

/-- Witness for C8: the rejected fixture record really is found under its
hex hash string, and its trace request fails with NO_TRACE. -/
theorem rejected_trace_policy_witness :
    DevnetTransactions.get_transaction_by_hash txsR hashStrA = .ok (some txRejected) ∧
    DevnetTransactions.get_transaction_trace txsR originEmpty hashStrA = .error .noTrace :=
  ⟨rfl, (rejected_trace_policy txsR originEmpty hashStrA txRejected rfl).1 rfl⟩

/-! ## Claim C10 -/

/-- C10: aborting a hash whose stored block was already aborted (its block
number cleared to `None`) fails with an unchecked `KeyError`, since `None`
is never a key of the int-keyed number-to-hash map; the raising `del` is the
first mutation in `abort_latest_block`, so in the source the failed call
leaves the by-hash map, the number-to-hash map and the snapshot archive
untouched, which in this pure embedding is reflected by no updated ledger
being produced at all. -/
theorem double_abort_keyerror (b : DevnetBlocks) (s : String) (h : Nat)
    (blk : StarknetBlock)
    (hparse : parse_block_hash (some s) = .ok (some h))
    (hblk : dget? b.hash2block h = some blk)
    (hnum : blk.block_number = none) :
    b.abort_latest_block s = .error .keyError := by
  simp [DevnetBlocks.abort_latest_block, hparse, hblk, hnum]

/-- Witness for C10: the fixture ledger whose only block is aborted rejects
a second abort of the same hash with a `KeyError`. -/
theorem double_abort_keyerror_witness :
    parse_block_hash (some hashStr1) = .ok (some 1) ∧
    dget? ledgerAborted.hash2block 1 = some blockAborted ∧
    blockAborted.block_number = none ∧
    ledgerAborted.abort_latest_block hashStr1 = .error .keyError :=
  ⟨rfl, rfl, rfl, double_abort_keyerror ledgerAborted hashStr1 1 blockAborted rfl rfl rfl⟩

/-! ## Claim C5 -/

/-- C5 counterexample: the explicit number `-1` lies outside
`[0, acceptedBlockCount())`, yet `get_by_number` fails with
MALFORMED_REQUEST, not with BLOCK_NOT_FOUND as the claim states. -/
theorem negative_number_error_counterexample :
    ((-1 : Int) < 0) ∧
    DevnetBlocks.get_by_number {} originEmpty (some (.int (-1))) = .error .malformedRequest ∧
    (Except.error .malformedRequest : Except DevnetError StarknetBlock) ≠
      .error .blockNotFound := by
  refine ⟨by decide, rfl, ?_⟩
  intro hcontra
  exact absurd (Except.error.inj hcontra) (by decide)

/-- C5 amended: an explicit negative block number fails with
MALFORMED_REQUEST, and an explicit number at or above
`acceptedBlockCount()` fails with BLOCK_NOT_FOUND. -/
theorem explicit_number_range_errors (b : DevnetBlocks) (o : Origin) (i : Int) :
    (i < 0 → b.get_by_number o (some (.int i)) = .error .malformedRequest) ∧
    (0 ≤ i → (b.get_number_of_accepted_blocks o : Int) ≤ i →
      b.get_by_number o (some (.int i)) = .error .blockNotFound) := by
  constructor
  · intro hi
    simp [DevnetBlocks.get_by_number, parse_block_number, DevnetBlocks.get_by_int,
      DevnetBlocks.assert_block_number_in_range, hi]
  · intro hi0 hcount
    have hni : ¬ i < 0 := by omega
    simp [DevnetBlocks.get_by_number, parse_block_number, DevnetBlocks.get_by_int,
      DevnetBlocks.assert_block_number_in_range, hni, hcount]

/-- Witness for the amended C5, at `-1` (malformed) and at `5` against an
empty ledger (not found). -/
theorem explicit_number_range_errors_witness :
    ((-1 : Int) < 0 ∧
      DevnetBlocks.get_by_number {} originEmpty (some (.int (-1))) = .error .malformedRequest) ∧
    ((0 : Int) ≤ 5 ∧
      (DevnetBlocks.get_number_of_accepted_blocks {} originEmpty : Int) ≤ 5 ∧
      DevnetBlocks.get_by_number {} originEmpty (some (.int 5)) = .error .blockNotFound) :=
  ⟨⟨by decide, (explicit_number_range_errors {} originEmpty (-1)).1 (by decide)⟩,
   ⟨by decide, by decide,
    (explicit_number_range_errors {} originEmpty 5).2 (by decide) (by decide)⟩⟩

/-! ## Claim C6 -/

/-- C6 (code bug): for a well-formed number inside
`[0, acceptedBlockCount())` whose block only the origin holds, the source's
`get_state_update` raises an unchecked `KeyError` at
`self.__num2hash[block_number]` (line 173) instead of delegating to the
origin; the origin would have answered the state-update query. Evaluated at
the failing input: one origin-owned block, empty local map, query number 0. -/
theorem state_update_origin_range_keyerror :
    DevnetBlocks.get_state_update {} originOne none (some (.int 0)) = .error .keyError ∧
    Origin.get_state_update originOne (some (.num 0)) = .ok (some suA) :=
  ⟨rfl, rfl⟩

/-! ## Claim C7 -/

/-- C7: `get_by_number` with the pending tag returns the staged pending
block when one exists and otherwise behaves exactly like the latest tag; the
latest tag delegates to origin when the local number-to-hash map is empty,
and otherwise returns the highest-numbered local sealed block (the block
stored under the number `acceptedBlockCount() - 1`). -/
theorem pending_latest_resolution (b : DevnetBlocks) (o : Origin) :
    (∀ pb, b.pending_block = some pb →
      b.get_by_number o (some (.str PENDING_BLOCK_ID)) = .ok pb) ∧
    (b.pending_block = none →
      b.get_by_number o (some (.str PENDING_BLOCK_ID)) =
        b.get_by_number o (some (.str LATEST_BLOCK_ID))) ∧
    (b.num2hash = [] →
      b.get_by_number o (some (.str LATEST_BLOCK_ID)) = o.get_block_by_number .latest) ∧
    (∀ n h blk, n + 1 = b.get_number_of_accepted_blocks o →
      dget? b.num2hash n = some h → dget? b.hash2block h = some blk →
      b.get_by_number o (some (.str LATEST_BLOCK_ID)) = .ok blk) := by
  refine ⟨?_, ?_, ?_, ?_⟩
  · intro pb hpb
    simp [DevnetBlocks.get_by_number, parse_block_number, hpb]
  · intro hpb
    simp [DevnetBlocks.get_by_number, parse_block_number, PENDING_BLOCK_ID,
      LATEST_BLOCK_ID, hpb]
  · intro hemp
    simp [DevnetBlocks.get_by_number, parse_block_number, PENDING_BLOCK_ID,
      LATEST_BLOCK_ID, hemp, List.isEmpty]
  · intro n h blk hn hnum hblk
    have hne : b.num2hash.isEmpty = false := by
      cases hb : b.num2hash with
      | nil => rw [hb] at hnum; simp [dget?] at hnum
      | cons p rest => simp
    have hcount : b.get_number_of_accepted_blocks o = n + 1 := hn.symm
    have hi : (b.get_number_of_accepted_blocks o : Int) - 1 = (n : Int) := by
      rw [hcount]; push_cast; ring
    have h1 : ¬ ((n : Int) < 0) := by omega
    have h2 : ¬ ((b.get_number_of_accepted_blocks o : Int) ≤ (n : Int)) := by
      rw [hcount]; push_cast; omega
    simp [DevnetBlocks.get_by_number, parse_block_number, PENDING_BLOCK_ID,
      LATEST_BLOCK_ID, hne, DevnetBlocks.get_last_block, DevnetBlocks.get_by_int, hi,
      DevnetBlocks.assert_block_number_in_range, h1, h2, hnum, hblk]

/-- Witness for C7: on a ledger with one sealed block and a staged pending
block, the pending tag returns the staged block; on the same ledger with no
pending block, the latest tag returns the sealed block. -/
theorem pending_latest_resolution_witness :
    (ledgerA.pending_block = none ∧
      DevnetBlocks.get_by_number ledgerA originEmpty (some (.str PENDING_BLOCK_ID)) =
        DevnetBlocks.get_by_number ledgerA originEmpty (some (.str LATEST_BLOCK_ID))) ∧
    (0 + 1 = DevnetBlocks.get_number_of_accepted_blocks ledgerA originEmpty ∧
      dget? ledgerA.num2hash 0 = some 1 ∧
      dget? ledgerA.hash2block 1 = some blockA ∧
      DevnetBlocks.get_by_number ledgerA originEmpty (some (.str LATEST_BLOCK_ID)) =
        .ok blockA) :=
  ⟨⟨rfl, (pending_latest_resolution ledgerA originEmpty).2.1 rfl⟩,
   ⟨rfl, rfl, rfl,
    (pending_latest_resolution ledgerA originEmpty).2.2.2 0 1 blockA rfl rfl rfl⟩⟩

/-! ## Claim C9 -/

/-- C9: querying the state update by the hash of an aborted block neither
fails nor delegates to the origin by hash: the stored aborted block's
cleared block number (`None`) makes the query resolve as the latest tag, so
it returns the latest block's state update, exactly as a call with no
arguments would. -/
theorem aborted_hash_state_update_latest (b : DevnetBlocks) (o : Origin) (s : String)
    (h : Nat) (blk : StarknetBlock)
    (htruthy : DevnetBlocks.bhTruthy (some s) = true)
    (hparse : parse_block_hash (some s) = .ok (some h))
    (hblk : dget? b.hash2block h = some blk)
    (hnum : blk.block_number = none) :
    b.get_state_update o (some s) none = b.latest_state_update o ∧
    b.get_state_update o (some s) none = b.get_state_update o none none := by
  have h1 : b.get_state_update o (some s) none = b.state_update_by_number o none := by
    simp [DevnetBlocks.get_state_update, htruthy, hparse, hblk, hnum]
  have h2 : b.state_update_by_number o none = b.latest_state_update o := by
    simp [DevnetBlocks.state_update_by_number, parse_block_number]
  have h3 : b.get_state_update o none none = b.state_update_by_number o none := by
    simp [DevnetBlocks.get_state_update, DevnetBlocks.bhTruthy]
  exact ⟨h1.trans h2, h1.trans h3.symm⟩

/-- Witness for C9: on the fixture ledger whose only block is aborted, the
by-hash state-update query for that hash equals the no-argument (latest)
query. -/
theorem aborted_hash_state_update_latest_witness :
    DevnetBlocks.bhTruthy (some hashStr1) = true ∧
    parse_block_hash (some hashStr1) = .ok (some 1) ∧
    dget? ledgerAborted.hash2block 1 = some blockAborted ∧
    blockAborted.block_number = none ∧
    DevnetBlocks.get_state_update ledgerAborted originEmpty (some hashStr1) none =
      DevnetBlocks.get_state_update ledgerAborted originEmpty none none :=
  ⟨rfl, rfl, rfl, rfl,
   (aborted_hash_state_update_latest ledgerAborted originEmpty hashStr1 1 blockAborted
      rfl rfl rfl rfl).2⟩

/-! ## Claim C2 -/

/-- C2: hash resolution policy of `store_pending`. In lite mode or for an
empty block, the sealed hash equals the block number; otherwise a given
forced hash is used; otherwise the hash is the external block-hash function
applied to (parent hash, number, state-root placeholder, timestamp,
transaction hashes, signatures, event hashes in receipt-then-event order,
sequencer address). -/
theorem seal_hash_policy (b : DevnetBlocks) (o : Origin) (hashFn : BlockHashFn)
    (eventHashFn : EventHashFn) (state : StarknetState) (is_empty_block : Bool)
    (forced : Option Nat) (b2 : DevnetBlocks) (blk : StarknetBlock)
    (hstore : b.store_pending o hashFn eventHashFn state is_empty_block forced =
      .ok (b2, blk)) :
    ((b.lite = true ∨ is_empty_block = true) →
      blk.block_hash = some (b.get_number_of_accepted_blocks o)) ∧
    (b.lite = false → is_empty_block = false → ∀ h, forced = some h →
      blk.block_hash = some h) ∧
    (b.lite = false → is_empty_block = false → forced = none →
      ∀ pb receipts, b.pending_block = some pb →
        pb.transaction_receipts = some receipts →
        blk.block_hash = some (hashFn
          { general_config := state.general_config
            parent_hash := pb.parent_block_hash
            block_number := b.get_number_of_accepted_blocks o
            global_state_root := DUMMY_STATE_ROOT
            block_timestamp := pb.timestamp
            tx_hashes := pb.transactions.map BlockTx.transaction_hash
            tx_signatures := b.pending_signatures
            event_hashes := receipts.flatMap
              (fun r => r.events.map (fun e => eventHashFn e.from_address e.keys e.data))
            sequencer_address := pb.sequencer_address })) := by
  cases hpb0 : b.pending_block with
  | none =>
    rw [DevnetBlocks.store_pending, hpb0] at hstore
    exact absurd hstore (by simp)
  | some pb0 =>
    rw [DevnetBlocks.store_pending, hpb0] at hstore
    refine ⟨?_, ?_, ?_⟩
    · intro hle
      have hcond : (b.lite || is_empty_block) = true := by
        rcases hle with h | h <;> simp [h]
      rw [hcond] at hstore
      simp only [if_true] at hstore
      simp only [Except.ok.injEq, Prod.mk.injEq] at hstore
      obtain ⟨-, hblk⟩ := hstore
      subst hblk
      simp [DevnetBlocks.get_next_block_number]
    · intro hlite hie h hforced
      subst hforced
      rw [hlite, hie] at hstore
      simp only [Bool.or_self, if_false, Bool.false_eq_true] at hstore
      simp only [Except.ok.injEq, Prod.mk.injEq] at hstore
      obtain ⟨-, hblk⟩ := hstore
      subst hblk
      simp
    · intro hlite hie hforced pb receipts hpb hreceipts
      obtain rfl := Option.some.inj hpb
      subst hforced
      rw [hlite, hie] at hstore
      simp only [Bool.or_self, if_false, Bool.false_eq_true] at hstore
      rw [DevnetBlocks.calculate_pending_block_hash, hreceipts] at hstore
      simp only [Except.ok.injEq, Prod.mk.injEq] at hstore
      obtain ⟨-, hblk⟩ := hstore
      subst hblk
      simp [DevnetBlocks.get_next_block_number]

/-! ## Helper lemmas about the range check and the staging step -/

theorem assert_range_notfound (i : Int) (count : Nat) (h0 : 0 ≤ i)
    (hc : (count : Int) ≤ i) :
    DevnetBlocks.assert_block_number_in_range i count = .error .blockNotFound := by
  unfold DevnetBlocks.assert_block_number_in_range
  rw [if_neg (by omega), if_pos hc]

theorem generate_pending_fields (b : DevnetBlocks) (o : Origin)
    (txs : List DevnetTransaction) (st : StarknetState) (su : Option BlockStateUpdate)
    (b1 : DevnetBlocks) (hgen : b.generate_pending o txs st su = .ok b1) :
    b1.num2hash = b.num2hash ∧ b1.hash2block = b.hash2block ∧
    b1.pending_block.isSome = true := by
  simp only [DevnetBlocks.generate_pending] at hgen
  by_cases h0 : b.get_number_of_accepted_blocks o = 0
  · rw [if_pos h0] at hgen
    simp only [Except.ok.injEq] at hgen
    subst hgen
    exact ⟨rfl, rfl, rfl⟩
  · rw [if_neg h0] at hgen
    cases hlb : b.get_last_block o with
    | error e =>
      rw [hlb] at hgen
      exact absurd hgen (by simp)
    | ok last =>
      rw [hlb] at hgen
      simp only [Except.ok.injEq] at hgen
      subst hgen
      exact ⟨rfl, rfl, rfl⟩

theorem store_pending_ok_number (b : DevnetBlocks) (o : Origin) (hf : BlockHashFn)
    (ef : EventHashFn) (st : StarknetState) (ie : Bool) (fh : Option Nat)
    (b2 : DevnetBlocks) (blk : StarknetBlock)
    (hstore : b.store_pending o hf ef st ie fh = .ok (b2, blk)) :
    blk.block_number = some (b.get_number_of_accepted_blocks o) := by
  cases hpb : b.pending_block with
  | none =>
    rw [DevnetBlocks.store_pending, hpb] at hstore
    exact absurd hstore (by simp)
  | some pb =>
    simp only [DevnetBlocks.store_pending, hpb] at hstore
    cases hcond : (b.lite || ie) with
    | true =>
      rw [hcond] at hstore
      simp only [if_true] at hstore
      simp only [Except.ok.injEq, Prod.mk.injEq] at hstore
      obtain ⟨-, hblk⟩ := hstore
      subst hblk
      simp [DevnetBlocks.get_next_block_number]
    | false =>
      rw [hcond] at hstore
      simp only [Bool.false_eq_true, if_false] at hstore
      cases fh with
      | some hsh =>
        simp only [Except.ok.injEq, Prod.mk.injEq] at hstore
        obtain ⟨-, hblk⟩ := hstore
        subst hblk
        simp [DevnetBlocks.get_next_block_number]
      | none =>
        cases hcalc : DevnetBlocks.calculate_pending_block_hash hf ef st pb
            b.pending_signatures (b.get_next_block_number o) DUMMY_STATE_ROOT with
        | error e =>
          rw [hcalc] at hstore
          exact absurd hstore (by simp)
        | ok bh =>
          rw [hcalc] at hstore
          simp only [Except.ok.injEq, Prod.mk.injEq] at hstore
          obtain ⟨-, hblk⟩ := hstore
          subst hblk
          simp [DevnetBlocks.get_next_block_number]

/-! ## Claim C1 -/

/-- C1: after staging and then sealing, the sealed block's number equals
`acceptedBlockCount()` measured immediately before sealing (staging does not
change that count), and, when the ledger's previous top block exists under
number `n = acceptedBlockCount() - 1`, `get_last_block` returns it and the
new number is strictly one greater than its number. -/
theorem seal_assigns_next_number (b : DevnetBlocks) (o : Origin)
    (txs : List DevnetTransaction) (st st2 : StarknetState) (su : Option BlockStateUpdate)
    (hashFn : BlockHashFn) (eventHashFn : EventHashFn) (ie : Bool) (fh : Option Nat)
    (b1 b2 : DevnetBlocks) (blk : StarknetBlock)
    (hgen : b.generate_pending o txs st su = .ok b1)
    (hstore : b1.store_pending o hashFn eventHashFn st2 ie fh = .ok (b2, blk)) :
    blk.block_number = some (b1.get_number_of_accepted_blocks o) ∧
    b1.get_number_of_accepted_blocks o = b.get_number_of_accepted_blocks o ∧
    (∀ n h prev, dget? b.num2hash n = some h → dget? b.hash2block h = some prev →
      prev.block_number = some n → n + 1 = b.get_number_of_accepted_blocks o →
      b.get_last_block o = .ok prev ∧ blk.block_number = some (n + 1)) := by
  obtain ⟨hnum2, hh2b, hpends⟩ := generate_pending_fields b o txs st su b1 hgen
  have hcounts : b1.get_number_of_accepted_blocks o = b.get_number_of_accepted_blocks o := by
    simp [DevnetBlocks.get_number_of_accepted_blocks, hnum2]
  have hbn := store_pending_ok_number b1 o hashFn eventHashFn st2 ie fh b2 blk hstore
  refine ⟨hbn, hcounts, ?_⟩
  intro n h prev hnu hbl hpn hcount
  constructor
  · have hi : (b.get_number_of_accepted_blocks o : Int) - 1 = (n : Int) := by
      rw [← hcount]; push_cast; ring
    have h1 : ¬ ((n : Int) < 0) := by omega
    have h2 : ¬ ((b.get_number_of_accepted_blocks o : Int) ≤ (n : Int)) := by
      rw [← hcount]; push_cast; omega
    simp [DevnetBlocks.get_last_block, DevnetBlocks.get_by_int, hi,
      DevnetBlocks.assert_block_number_in_range, h1, h2, hnu, hbl]
  · rw [hbn, hcounts, ← hcount]

/-! ## Claim C3 -/

/-- C3: aborting the highest-numbered local sealed block (hash `h`, number
`n`) succeeds, and afterwards the old number fails with BLOCK_NOT_FOUND, the
hash still resolves to the block but with status ABORTED, no receipts and no
number, the number-to-hash entry is gone, and no snapshot is stored for `h`
any more. -/
theorem abort_latest_effects (b : DevnetBlocks) (o : Origin) (s : String) (h n : Nat)
    (blk : StarknetBlock)
    (hparse : parse_block_hash (some s) = .ok (some h))
    (hblk : dget? b.hash2block h = some blk)
    (hn : blk.block_number = some n)
    (hnum : dget? b.num2hash n = some h)
    (htop : n + 1 = b.get_number_of_accepted_blocks o) :
    ∃ b2 r, b.abort_latest_block s = .ok (b2, r) ∧
      b2.get_by_number o (some (.int (n : Int))) = .error .blockNotFound ∧
      b2.get_by_hash o (some s) =
        .ok { blk with status := .ABORTED, transaction_receipts := none,
                       block_number := none } ∧
      dget? b2.num2hash n = none ∧
      b2.get_state h = none := by
  have hsome : (dget? b.num2hash n).isSome = true := by rw [hnum]; rfl
  have habort : b.abort_latest_block s = .ok
      ({ b with
          num2hash := derase b.num2hash n
          hash2block := dinsert b.hash2block h
            { blk with status := .ABORTED, transaction_receipts := none,
                       block_number := none }
          state_archive := derase b.state_archive h }, blk.block_hash) := by
    simp [DevnetBlocks.abort_latest_block, hparse, hblk, hn, hsome]
  refine ⟨_, _, habort, ?_, ?_, ?_, ?_⟩
  · have ht : n + 1 = b.num2hash.length + o.get_number_of_blocks := htop
    have hlt := length_derase_lt b.num2hash n hsome
    have hnf := assert_range_notfound (n : Int)
      ((derase b.num2hash n).length + o.get_number_of_blocks)
      (by omega) (by push_cast; omega)
    simp [DevnetBlocks.get_by_number, parse_block_number, DevnetBlocks.get_by_int,
      DevnetBlocks.get_number_of_accepted_blocks, hnf]
  · simp [DevnetBlocks.get_by_hash, hparse, dget?_dinsert_self]
  · exact dget?_derase_self b.num2hash n
  · exact dget?_derase_self b.state_archive h

/-! ## Claim C4 -/

/-- C4: a stored transaction record's status payload contains `block_hash`
(the hex of its containing block's hash) exactly when its status is
ACCEPTED_ON_L2 and a block reference is set; after `reject_transaction` the
record is REJECTED with the block reference cleared, so the payload has no
`block_hash` and carries the fixed failure reason with message
"Block aborted.". -/
theorem tx_status_payload_roundtrip (txs : DevnetTransactions) (o : Origin) (s : String)
    (nh : Nat) (tx : DevnetTransaction)
    (hparse : parse0x s = some nh)
    (htx : dget? txs.instances nh = some tx) :
    (∀ blk bh, tx.status = .ACCEPTED_ON_L2 → tx.block = some blk →
      blk.block_hash = some bh →
      txs.get_transaction_status o s = .ok
        { tx_status := "ACCEPTED_ON_L2", block_hash := some (pyHex bh),
          tx_failure_reason := none }) ∧
    (¬ (tx.status = .ACCEPTED_ON_L2 ∧ tx.block.isSome = true) →
      ∃ resp, txs.get_transaction_status o s = .ok resp ∧ resp.block_hash = none) ∧
    (∃ txs2, txs.reject_transaction nh = .ok txs2 ∧
      dget? txs2.instances nh = some
        { tx with status := .REJECTED, block := none,
                  transaction_failure_reason :=
                    some { code := "TRANSACTION_FAILED",
                           error_message := "Block aborted." } } ∧
      txs2.get_transaction_status o s = .ok
        { tx_status := "REJECTED", block_hash := none,
          tx_failure_reason :=
            some (some { code := "TRANSACTION_FAILED",
                         error_message := "Block aborted." }) }) := by
  refine ⟨?_, ?_, ?_⟩
  · intro blk bh hst hb hbh
    simp [DevnetTransactions.get_transaction_status,
      DevnetTransactions.get_transaction_by_hash, hparse, htx, hst, hb, hbh,
      DevnetTransaction.get_tx_info, TransactionStatus.name]
  · intro hnot
    refine ⟨{ tx_status := tx.status.name
              block_hash := none
              tx_failure_reason :=
                if tx.status = .REJECTED then some tx.transaction_failure_reason
                else none },
      ?_, rfl⟩
    simp [DevnetTransactions.get_transaction_status,
      DevnetTransactions.get_transaction_by_hash, hparse, htx, hnot,
      DevnetTransaction.get_tx_info]
  · refine ⟨{ txs with instances := dinsert txs.instances nh { tx with status := .REJECTED, block := none, transaction_failure_reason := some { code := "TRANSACTION_FAILED", error_message := "Block aborted." } } }, ?_, ?_, ?_⟩
    · simp [DevnetTransactions.reject_transaction, htx]
    · exact dget?_dinsert_self txs.instances nh _
    · simp [DevnetTransactions.get_transaction_status,
        DevnetTransactions.get_transaction_by_hash, hparse, dget?_dinsert_self,
        DevnetTransaction.get_tx_info, TransactionStatus.name]

/-! ## Witness fixtures for the staging and sealing claims -/

def evA : Event := { from_address := 11, keys := [1], data := [2] }

def receiptW : TransactionExecution :=
  { transaction_hash := 10
    transaction_index := some 0
    actual_fee := 4
    events := [evA] }

/-- A staged pending block carrying one transaction with one event. -/
def pendingBlockW : StarknetBlock :=
  { block_hash := none
    block_number := none
    state_root := none
    transactions := [{ transaction_hash := 10 }]
    timestamp := 5
    transaction_receipts := some [receiptW]
    status := .PENDING
    gas_price := 1
    sequencer_address := 7
    parent_block_hash := some 0
    starknet_version := CAIRO_LANG_VERSION }

def pendingLedgerW : DevnetBlocks :=
  { pending_block := some pendingBlockW
    pending_state_update := some suA
    pending_signatures := some [[2, 3]] }

/-- A concrete stand-in for the external block-hash function. -/
def hashFnW : BlockHashFn := fun i => i.block_number + 100

/-- A concrete stand-in for the external event-hash function. -/
def eventHashFnW : EventHashFn := fun a k d => a + k.length + d.length

def sealW : DevnetBlocks × StarknetBlock :=
  (DevnetBlocks.store_pending pendingLedgerW originEmpty hashFnW eventHashFnW stateA
    false none).toOption.getD ({}, blockA)

/-- The exact block-hash input recorded for `pendingBlockW`. -/
def bhInputW : BlockHashInput :=
  { general_config := stateA.general_config
    parent_hash := pendingBlockW.parent_block_hash
    block_number := DevnetBlocks.get_number_of_accepted_blocks pendingLedgerW originEmpty
    global_state_root := DUMMY_STATE_ROOT
    block_timestamp := pendingBlockW.timestamp
    tx_hashes := pendingBlockW.transactions.map BlockTx.transaction_hash
    tx_signatures := pendingLedgerW.pending_signatures
    event_hashes := [receiptW].flatMap
      (fun r => r.events.map (fun e => eventHashFnW e.from_address e.keys e.data))
    sequencer_address := pendingBlockW.sequencer_address }

/-- Witness for C2: sealing the staged fixture in non-lite non-empty mode
with no forced hash yields exactly the external hash of the recorded
inputs. -/
theorem seal_hash_policy_witness :
    DevnetBlocks.store_pending pendingLedgerW originEmpty hashFnW eventHashFnW stateA
      false none = .ok (sealW.1, sealW.2) ∧
    sealW.2.block_hash = some (hashFnW bhInputW) :=
  ⟨rfl,
   (seal_hash_policy pendingLedgerW originEmpty hashFnW eventHashFnW stateA false none
      sealW.1 sealW.2 rfl).2.2 rfl rfl rfl pendingBlockW [receiptW] rfl rfl⟩

def stagedLedgerA : DevnetBlocks :=
  (DevnetBlocks.generate_pending ledgerA originEmpty [] stateA none).toOption.getD {}

def sealedA2 : DevnetBlocks × StarknetBlock :=
  (DevnetBlocks.store_pending stagedLedgerA originEmpty hashFnW eventHashFnW stateA
    true none).toOption.getD ({}, blockA)

/-- Witness for C1: staging then sealing on top of the one-block fixture
ledger produces block number 1, one greater than the previous block's
number 0. -/
theorem seal_assigns_next_number_witness :
    DevnetBlocks.generate_pending ledgerA originEmpty [] stateA none = .ok stagedLedgerA ∧
    DevnetBlocks.store_pending stagedLedgerA originEmpty hashFnW eventHashFnW stateA
      true none = .ok (sealedA2.1, sealedA2.2) ∧
    dget? ledgerA.num2hash 0 = some 1 ∧
    dget? ledgerA.hash2block 1 = some blockA ∧
    blockA.block_number = some 0 ∧
    0 + 1 = DevnetBlocks.get_number_of_accepted_blocks ledgerA originEmpty ∧
    sealedA2.2.block_number = some (0 + 1) :=
  ⟨rfl, rfl, rfl, rfl, rfl, rfl,
   ((seal_assigns_next_number ledgerA originEmpty [] stateA stateA none hashFnW
       eventHashFnW true none stagedLedgerA sealedA2.1 sealedA2.2 rfl rfl).2.2 0 1 blockA
     rfl rfl rfl rfl).2⟩

/-- Witness for C3: aborting the fixture ledger's only (hence
highest-numbered) block produces all four observable effects. -/
theorem abort_latest_effects_witness :
    parse_block_hash (some hashStr1) = .ok (some 1) ∧
    dget? ledgerA.hash2block 1 = some blockA ∧
    blockA.block_number = some 0 ∧
    dget? ledgerA.num2hash 0 = some 1 ∧
    0 + 1 = DevnetBlocks.get_number_of_accepted_blocks ledgerA originEmpty ∧
    (∃ b2 r, DevnetBlocks.abort_latest_block ledgerA hashStr1 = .ok (b2, r) ∧
      b2.get_by_number originEmpty (some (.int ((0 : Nat) : Int))) =
        .error .blockNotFound ∧
      b2.get_by_hash originEmpty (some hashStr1) =
        .ok { blockA with status := .ABORTED, transaction_receipts := none,
                          block_number := none } ∧
      dget? b2.num2hash 0 = none ∧
      b2.get_state 1 = none) :=
  ⟨rfl, rfl, rfl, rfl, rfl,
   abort_latest_effects ledgerA originEmpty hashStr1 1 0 blockA rfl rfl rfl rfl rfl⟩

/-- Witness for C4: the accepted fixture record's status payload carries the
hex block hash of `blockA`. -/
theorem tx_status_payload_roundtrip_witness :
    parse0x hashStrA = some 10 ∧
    dget? txsA.instances 10 = some txAccepted ∧
    DevnetTransactions.get_transaction_status txsA originEmpty hashStrA = .ok
      { tx_status := "ACCEPTED_ON_L2"
        block_hash := some (pyHex 1)
        tx_failure_reason := none } :=
  ⟨rfl, rfl,
   (tx_status_payload_roundtrip txsA originEmpty hashStrA 10 txAccepted rfl rfl).1
     blockA 1 rfl rfl rfl⟩
